import Mathlib

/-!
Shallow embedding of `src/models/base.py` from the TortoiseSchema repository.

The file defines two pydantic-based schema classes, `TortoiseSchema` and
`TortoiseListSchema`.  Each reads an optional `fetch_fields` attribute off its
`Config` subclass (`get_prefetch_fields`), asks the ORM collaborator to
prefetch exactly those relations, and hands the refreshed record(s) to
pydantic's `from_orm` converter.

The two external collaborators (the Tortoise ORM and pydantic) are opaque in
the repository, so they are parameters here (the `Collab` structure): each
collaborator call may fail (`Except`).  Every adapter operation returns, next
to its result, the trace of collaborator calls it issued (`Event` list) and
the class configuration as it stands after the call, so that call-counting,
error-propagation and frame properties are statable.
-/

/-- Class-level configuration of a schema type.  `fetch_fields` models the
optional `fetch_fields` attribute of the `Config` subclass of the schema
class: `none` when the attribute is absent (unconfigured). -/
structure SchemaConfig where
  fetch_fields : Option (List String)
deriving DecidableEq, Repr

/-- The opaque collaborators of the adapter, over record type `M`, queryset
type `Q`, schema-instance type `S` and error type `E`.

`fetch_related` models `await model.fetch_related(*fields)` on a resolved
record: it refreshes the record with the named relations populated.
`prefetch_many` models `await queryset.prefetch_related(*fields)` on a
multi-record queryset, yielding the ordered list of records; `prefetch_single`
models the same call on a single-record queryset (such as `Model.get(pk=1)`),
yielding one record.  `from_orm` is pydantic's converter on one record;
`from_orm_root` is the same converter applied to a whole record list as the
root value of a `__root__` schema. -/
structure Collab (M Q S E : Type) where
  fetch_related : M → List String → Except E M
  prefetch_many : Q → List String → Except E (List M)
  prefetch_single : Q → List String → Except E M
  from_orm : M → Except E S
  from_orm_root : List M → Except E S

/-- Trace of the collaborator calls an adapter operation issues, in order.
`fetchRelated target rels` and `prefetchRelated qs rels` are the two
augmented-fetch calls against the object source; `fromOrm record` and
`fromOrmRoot records` are the converter calls. -/
inductive Event (M Q : Type) where
  | fetchRelated : M → List String → Event M Q
  | prefetchRelated : Q → List String → Event M Q
  | fromOrm : M → Event M Q
  | fromOrmRoot : List M → Event M Q
deriving DecidableEq, Repr

/-- Whether an event is an augmented fetch against the object source. -/
def Event.isFetch {M Q : Type} : Event M Q → Bool
  | .fetchRelated _ _ => true
  | .prefetchRelated _ _ => true
  | .fromOrm _ => false
  | .fromOrmRoot _ => false

/-- Whether an event is a converter call. -/
def Event.isConvert {M Q : Type} : Event M Q → Bool
  | .fetchRelated _ _ => false
  | .prefetchRelated _ _ => false
  | .fromOrm _ => true
  | .fromOrmRoot _ => true

/-- The relation list carried by a fetch event, `none` on converter events. -/
def Event.rels? {M Q : Type} : Event M Q → Option (List String)
  | .fetchRelated _ rels => some rels
  | .prefetchRelated _ rels => some rels
  | .fromOrm _ => none
  | .fromOrmRoot _ => none

variable {M Q S E : Type}

/-- Embedding of `TortoiseSchema.get_prefetch_fields`:
`getattr(cls.__config__, "fetch_fields", [])`.  The attribute read does not
assign anything, so the configuration comes back unchanged. -/
def TortoiseSchema.get_prefetch_fields (cfg : SchemaConfig) :
    List String × SchemaConfig :=
  (cfg.fetch_fields.getD [], cfg)

/-- Embedding of `TortoiseSchema.from_tortoise`:
`cls.from_orm(await model.fetch_related(*cls.get_prefetch_fields()))`.
A raised exception from either collaborator propagates; the trace records
each collaborator call as it is issued. -/
def TortoiseSchema.from_tortoise (C : Collab M Q S E) (cfg : SchemaConfig)
    (model : M) : (Except E S × List (Event M Q)) × SchemaConfig :=
  let p := TortoiseSchema.get_prefetch_fields cfg
  match C.fetch_related model p.1 with
  | .error e => ((.error e, [Event.fetchRelated model p.1]), p.2)
  | .ok refreshed =>
    match C.from_orm refreshed with
    | .error e =>
      ((.error e, [Event.fetchRelated model p.1, Event.fromOrm refreshed]),
        p.2)
    | .ok s =>
      ((.ok s, [Event.fetchRelated model p.1, Event.fromOrm refreshed]), p.2)

/-- Embedding of the list comprehension
`[cls.from_orm(model) for model in models]`: each record is converted
independently, in order; a converter exception propagates after the
preceding records were converted. -/
def TortoiseSchema.convert_each (C : Collab M Q S E) :
    List M → Except E (List S) × List (Event M Q)
  | [] => (.ok [], [])
  | m :: ms =>
    match C.from_orm m with
    | .error e => (.error e, [Event.fromOrm m])
    | .ok s =>
      match TortoiseSchema.convert_each C ms with
      | (.error e, t) => (.error e, Event.fromOrm m :: t)
      | (.ok ss, t) => (.ok (s :: ss), Event.fromOrm m :: t)

/-- Embedding of `TortoiseSchema.from_queryset`:
`[cls.from_orm(model) for model in await queryset.prefetch_related(*cls.get_prefetch_fields())]`. -/
def TortoiseSchema.from_queryset (C : Collab M Q S E) (cfg : SchemaConfig)
    (qs : Q) : (Except E (List S) × List (Event M Q)) × SchemaConfig :=
  let p := TortoiseSchema.get_prefetch_fields cfg
  match C.prefetch_many qs p.1 with
  | .error e => ((.error e, [Event.prefetchRelated qs p.1]), p.2)
  | .ok models =>
    match TortoiseSchema.convert_each C models with
    | (r, t) => ((r, Event.prefetchRelated qs p.1 :: t), p.2)

/-- Embedding of `TortoiseSchema.from_queryset_single`:
`cls.from_orm(await queryset.prefetch_related(*cls.get_prefetch_fields()))`
on a single-record queryset. -/
def TortoiseSchema.from_queryset_single (C : Collab M Q S E)
    (cfg : SchemaConfig) (qs : Q) :
    (Except E S × List (Event M Q)) × SchemaConfig :=
  let p := TortoiseSchema.get_prefetch_fields cfg
  match C.prefetch_single qs p.1 with
  | .error e => ((.error e, [Event.prefetchRelated qs p.1]), p.2)
  | .ok record =>
    match C.from_orm record with
    | .error e =>
      ((.error e, [Event.prefetchRelated qs p.1, Event.fromOrm record]), p.2)
    | .ok s =>
      ((.ok s, [Event.prefetchRelated qs p.1, Event.fromOrm record]), p.2)

/-- Embedding of `TortoiseListSchema.get_prefetch_fields`: the body is
identical to the `TortoiseSchema` accessor,
`getattr(cls.__config__, "fetch_fields", [])`. -/
def TortoiseListSchema.get_prefetch_fields (cfg : SchemaConfig) :
    List String × SchemaConfig :=
  (cfg.fetch_fields.getD [], cfg)

/-- Embedding of `TortoiseListSchema.from_queryset`:
`cls.from_orm(await queryset.prefetch_related(*cls.get_prefetch_fields()))`,
where `from_orm` on a `__root__` schema converts the whole awaited record
list as a single root value. -/
def TortoiseListSchema.from_queryset (C : Collab M Q S E) (cfg : SchemaConfig)
    (qs : Q) : (Except E S × List (Event M Q)) × SchemaConfig :=
  let p := TortoiseListSchema.get_prefetch_fields cfg
  match C.prefetch_many qs p.1 with
  | .error e => ((.error e, [Event.prefetchRelated qs p.1]), p.2)
  | .ok models =>
    match C.from_orm_root models with
    | .error e =>
      ((.error e,
        [Event.prefetchRelated qs p.1, Event.fromOrmRoot models]), p.2)
    | .ok s =>
      ((.ok s, [Event.prefetchRelated qs p.1, Event.fromOrmRoot models]), p.2)

/-! ### Helper lemmas about `convert_each` (the per-record conversion loop) -/

/-- Every event emitted by the conversion loop is a converter call. -/
theorem convert_each_events_convert (C : Collab M Q S E) (ms : List M) :
    ∀ ev ∈ (TortoiseSchema.convert_each C ms).2, ev.isFetch = false := by
  induction ms with
  | nil => intro ev hev; simp [TortoiseSchema.convert_each] at hev
  | cons m ms ih =>
    intro ev hev
    simp only [TortoiseSchema.convert_each] at hev
    cases hfo : C.from_orm m with
    | error e =>
      rw [hfo] at hev
      simp at hev
      subst hev
      rfl
    | ok s =>
      rw [hfo] at hev
      rcases hrec : TortoiseSchema.convert_each C ms with ⟨r, t⟩
      rw [hrec] at hev
      cases r <;> simp at hev <;>
        rcases hev with h | h
      · subst h; rfl
      · exact ih ev (by rw [hrec]; exact h)
      · subst h; rfl
      · exact ih ev (by rw [hrec]; exact h)

/-- When every record converts successfully, the loop returns the converted
records in order. -/
theorem convert_each_ok_map (C : Collab M Q S E) (ms : List M) (f : M → S)
    (hf : ∀ r ∈ ms, C.from_orm r = .ok (f r)) :
    TortoiseSchema.convert_each C ms = (.ok (ms.map f),
      ms.map fun m => Event.fromOrm m) := by
  induction ms with
  | nil => simp [TortoiseSchema.convert_each]
  | cons m ms ih =>
    have hm : C.from_orm m = .ok (f m) := hf m (by simp)
    have hrest : ∀ r ∈ ms, C.from_orm r = .ok (f r) :=
      fun r hr => hf r (by simp [hr])
    simp [TortoiseSchema.convert_each, hm, ih hrest]

/-- A conversion-loop failure is the failure of the converter on one of the
records. -/
theorem convert_each_error (C : Collab M Q S E) (ms : List M) (e : E)
    (h : (TortoiseSchema.convert_each C ms).1 = .error e) :
    ∃ m ∈ ms, C.from_orm m = .error e := by
  induction ms with
  | nil => simp [TortoiseSchema.convert_each] at h
  | cons m ms ih =>
    simp only [TortoiseSchema.convert_each] at h
    cases hfo : C.from_orm m with
    | error e' =>
      rw [hfo] at h
      simp at h
      exact ⟨m, by simp, by rw [hfo, h]⟩
    | ok s =>
      rw [hfo] at h
      rcases hrec : TortoiseSchema.convert_each C ms with ⟨r, t⟩
      rw [hrec] at h
      cases r with
      | error e' =>
        simp at h
        obtain ⟨m', hm', he'⟩ := ih (by rw [hrec, h])
        exact ⟨m', by simp [hm'], he'⟩
      | ok ss => simp at h

/-! ### Concrete collaborator instances used by witnesses -/

/-- A fully succeeding collaborator over `Nat` records and querysets: a
queryset `q` yields the records `0, ..., q-1`, refreshing adds one, the
converter doubles, and the root converter takes the length. -/
def collabOk : Collab Nat Nat Nat Nat where
  fetch_related := fun m _ => .ok (m + 1)
  prefetch_many := fun q _ => .ok (List.range q)
  prefetch_single := fun q _ => .ok q
  from_orm := fun m => .ok (m * 2)
  from_orm_root := fun ms => .ok ms.length

/-- A collaborator each of whose operations fails, with a distinct error per
operation. -/
def collabBad : Collab Nat Nat Nat Nat where
  fetch_related := fun _ _ => .error 7
  prefetch_many := fun _ _ => .error 8
  prefetch_single := fun _ _ => .error 9
  from_orm := fun _ => .error 10
  from_orm_root := fun _ => .error 11

/-- A collaborator whose fetches succeed but whose per-record converter
fails on record `1` alone, with error `13`. -/
def collabMid : Collab Nat Nat Nat Nat where
  fetch_related := fun m _ => .ok m
  prefetch_many := fun q _ => .ok (List.range q)
  prefetch_single := fun q _ => .ok q
  from_orm := fun m => if m = 1 then .error 13 else .ok m
  from_orm_root := fun ms => .ok ms.length

/-! ### C3 -/

/-- C3: `get_prefetch_fields` on a schema type whose configuration does not
define `fetch_fields` returns the empty sequence; on every schema type (both
classes) it is pure: it is a total function with no failure path and it
leaves the configuration unchanged. -/
theorem get_prefetch_fields_unconfigured_empty_and_pure (cfg : SchemaConfig) :
    (cfg.fetch_fields = none →
      TortoiseSchema.get_prefetch_fields cfg = ([], cfg) ∧
      TortoiseListSchema.get_prefetch_fields cfg = ([], cfg)) ∧
    (TortoiseSchema.get_prefetch_fields cfg).2 = cfg ∧
    (TortoiseListSchema.get_prefetch_fields cfg).2 = cfg := by
  refine ⟨fun h => ?_, rfl, rfl⟩
  simp [TortoiseSchema.get_prefetch_fields,
    TortoiseListSchema.get_prefetch_fields, h]

/-- Witness for C3 at the unconfigured schema type. -/
theorem get_prefetch_fields_unconfigured_empty_and_pure_witness :
    TortoiseSchema.get_prefetch_fields ⟨none⟩ = ([], ⟨none⟩) ∧
    TortoiseListSchema.get_prefetch_fields ⟨none⟩ = ([], ⟨none⟩) :=
  (get_prefetch_fields_unconfigured_empty_and_pure ⟨none⟩).1 rfl

/-! ### C9 -/

/-- C9: no operation of either schema class mutates adapter-owned state: the
configuration (in particular its `fetch_fields` sequence) after every call to
`get_prefetch_fields`, `from_tortoise`, `from_queryset` or
`from_queryset_single` is identical to the configuration before it, so
nothing persists from one call to the next. -/
theorem no_adapter_state_mutation (C : Collab M Q S E) (cfg : SchemaConfig)
    (model : M) (qs : Q) :
    (TortoiseSchema.from_tortoise C cfg model).2 = cfg ∧
    (TortoiseSchema.from_queryset C cfg qs).2 = cfg ∧
    (TortoiseSchema.from_queryset_single C cfg qs).2 = cfg ∧
    (TortoiseListSchema.from_queryset C cfg qs).2 = cfg ∧
    (TortoiseSchema.get_prefetch_fields cfg).2 = cfg ∧
    (TortoiseListSchema.get_prefetch_fields cfg).2 = cfg := by
  refine ⟨?_, ?_, ?_, ?_, rfl, rfl⟩ <;>
    simp only [TortoiseSchema.from_tortoise, TortoiseSchema.from_queryset,
      TortoiseSchema.from_queryset_single, TortoiseListSchema.from_queryset,
      TortoiseSchema.get_prefetch_fields,
      TortoiseListSchema.get_prefetch_fields] <;>
    repeat first | rfl | split

/-! ### C5 -/

/-- C5: when the underlying fetch yields zero records,
`TortoiseSchema.from_queryset` returns the empty sequence, not an error. -/
theorem from_queryset_empty_fetch_empty_result (C : Collab M Q S E)
    (cfg : SchemaConfig) (qs : Q)
    (hq : C.prefetch_many qs (cfg.fetch_fields.getD []) = .ok []) :
    (TortoiseSchema.from_queryset C cfg qs).1.1 = .ok [] := by
  simp [TortoiseSchema.from_queryset, TortoiseSchema.get_prefetch_fields, hq,
    TortoiseSchema.convert_each]

/-- Witness for C5: `collabOk` with queryset `0` yields no records. -/
theorem from_queryset_empty_fetch_empty_result_witness :
    (TortoiseSchema.from_queryset collabOk ⟨some ["a"]⟩ 0).1.1 = .ok [] :=
  from_queryset_empty_fetch_empty_result collabOk ⟨some ["a"]⟩ 0 rfl

/-! ### C6 -/

/-- Specification-side definition for the refinement claim, written from the
spec's words for `convert_single_from_request`: augment the request with the
configured relation list, execute it, and return the converter's direct
conversion of the single yielded record; any collaborator failure surfaces
as-is. -/
def convert_single_from_request_spec (C : Collab M Q S E)
    (cfg : SchemaConfig) (qs : Q) : Except E S :=
  match C.prefetch_single qs (cfg.fetch_fields.getD []) with
  | .error e => .error e
  | .ok record => C.from_orm record

/-- C6: `TortoiseSchema.from_queryset_single` refines the specification-side
conversion: its result always equals `convert_single_from_request_spec`, and
in particular when the underlying fetch yields exactly one record `r` the
result is exactly the converter's direct conversion `from_orm r`. -/
theorem from_queryset_single_refines_direct_conversion (C : Collab M Q S E)
    (cfg : SchemaConfig) (qs : Q) :
    (TortoiseSchema.from_queryset_single C cfg qs).1.1
      = convert_single_from_request_spec C cfg qs ∧
    ∀ r : M,
      C.prefetch_single qs (cfg.fetch_fields.getD []) = .ok r →
      (TortoiseSchema.from_queryset_single C cfg qs).1.1 = C.from_orm r := by
  constructor
  · cases hps : C.prefetch_single qs (cfg.fetch_fields.getD []) with
    | error e =>
      simp [TortoiseSchema.from_queryset_single,
        TortoiseSchema.get_prefetch_fields, convert_single_from_request_spec,
        hps]
    | ok r =>
      cases hfo : C.from_orm r <;>
        simp [TortoiseSchema.from_queryset_single,
          TortoiseSchema.get_prefetch_fields,
          convert_single_from_request_spec, hps, hfo]
  · intro r hr
    simp only [TortoiseSchema.from_queryset_single,
      TortoiseSchema.get_prefetch_fields]
    rw [hr]
    cases hfo : C.from_orm r <;> simp [hfo]

/-- Witness for C6: `collabOk` with single queryset `5` yields record `5`,
and the result is its direct conversion. -/
theorem from_queryset_single_refines_direct_conversion_witness :
    (TortoiseSchema.from_queryset_single collabOk ⟨some ["a"]⟩ 5).1.1
      = collabOk.from_orm 5 :=
  (from_queryset_single_refines_direct_conversion collabOk
    ⟨some ["a"]⟩ 5).2 5 rfl

/-! ### C4 -/

/-- C4: `TortoiseSchema.from_queryset` preserves the ordering of the
underlying fetch result and converts each record independently: when the
fetch yields `[r1, r2, r3]` and the converter succeeds on each record, the
returned sequence is exactly `[from_orm r1, from_orm r2, from_orm r3]`. -/
theorem from_queryset_preserves_order (C : Collab M Q S E)
    (cfg : SchemaConfig) (qs : Q) (r1 r2 r3 : M) (f : M → S)
    (hq : C.prefetch_many qs (cfg.fetch_fields.getD []) = .ok [r1, r2, r3])
    (hf : ∀ r ∈ [r1, r2, r3], C.from_orm r = .ok (f r)) :
    (TortoiseSchema.from_queryset C cfg qs).1.1 = .ok [f r1, f r2, f r3] := by
  simp only [TortoiseSchema.from_queryset, TortoiseSchema.get_prefetch_fields]
  rw [hq]
  simp [convert_each_ok_map C [r1, r2, r3] f hf]

/-- Witness for C4: `collabOk` with queryset `3` yields `[0, 1, 2]`, and the
result doubles each record in order. -/
theorem from_queryset_preserves_order_witness :
    (TortoiseSchema.from_queryset collabOk ⟨some ["a"]⟩ 3).1.1
      = .ok [0, 2, 4] :=
  from_queryset_preserves_order collabOk ⟨some ["a"]⟩ 3 0 1 2 (fun m => m * 2)
    rfl (by simp [collabOk])

/-! ### C1 -/

/-- C1: for a schema type configured with `fetch_fields = ["customer"]`,
`TortoiseSchema.from_tortoise` on a resolved record issues exactly one
augmented fetch call, targeting that record with relation list
`["customer"]` (whose set is `{"customer"}`), and exactly one converter call
whose argument is the refreshed record returned by that fetch. -/
theorem from_tortoise_customer_scenario (C : Collab M Q S E) (model m : M)
    (h : C.fetch_related model ["customer"] = .ok m) :
    ((TortoiseSchema.from_tortoise C ⟨some ["customer"]⟩ model).1.2.filter
        Event.isFetch = [Event.fetchRelated model ["customer"]]) ∧
    ((TortoiseSchema.from_tortoise C ⟨some ["customer"]⟩ model).1.2.filter
        Event.isConvert = [Event.fromOrm m]) ∧
    (["customer"] : List String).toFinset = {"customer"} := by
  cases hfo : C.from_orm m <;>
    simp [TortoiseSchema.from_tortoise, TortoiseSchema.get_prefetch_fields,
      h, hfo, Event.isFetch, Event.isConvert, List.filter]

/-- Witness for C1: `collabOk` refreshes record `5` to `6`. -/
theorem from_tortoise_customer_scenario_witness :
    ((TortoiseSchema.from_tortoise collabOk ⟨some ["customer"]⟩ 5).1.2.filter
        Event.isFetch = [Event.fetchRelated 5 ["customer"]]) ∧
    ((TortoiseSchema.from_tortoise collabOk ⟨some ["customer"]⟩ 5).1.2.filter
        Event.isConvert = [Event.fromOrm 6]) ∧
    (["customer"] : List String).toFinset = {"customer"} :=
  from_tortoise_customer_scenario collabOk 5 6 rfl

/-! ### C8 -/

/-- The conversion loop issues no fetch against the object source. -/
theorem convert_each_countP_isFetch (C : Collab M Q S E) (ms : List M) :
    ((TortoiseSchema.convert_each C ms).2.countP Event.isFetch) = 0 := by
  rw [List.countP_eq_zero]
  intro ev hev
  simp [convert_each_events_convert C ms ev hev]

/-- C8: every single call to any conversion operation of either schema class
issues exactly one augmented fetch against the object source — never zero
and never more than one — whatever the collaborators return. -/
theorem exactly_one_fetch_per_call (C : Collab M Q S E) (cfg : SchemaConfig)
    (model : M) (qs : Q) :
    ((TortoiseSchema.from_tortoise C cfg model).1.2.countP
        Event.isFetch = 1) ∧
    ((TortoiseSchema.from_queryset C cfg qs).1.2.countP
        Event.isFetch = 1) ∧
    ((TortoiseSchema.from_queryset_single C cfg qs).1.2.countP
        Event.isFetch = 1) ∧
    ((TortoiseListSchema.from_queryset C cfg qs).1.2.countP
        Event.isFetch = 1) := by
  refine ⟨?_, ?_, ?_, ?_⟩
  · cases hf : C.fetch_related model (cfg.fetch_fields.getD []) with
    | error e =>
      simp [TortoiseSchema.from_tortoise, TortoiseSchema.get_prefetch_fields,
        hf, List.countP_cons, Event.isFetch]
    | ok r =>
      cases hfo : C.from_orm r <;>
        simp [TortoiseSchema.from_tortoise,
          TortoiseSchema.get_prefetch_fields, hf, hfo, List.countP_cons,
          Event.isFetch]
  · cases hq : C.prefetch_many qs (cfg.fetch_fields.getD []) with
    | error e =>
      simp [TortoiseSchema.from_queryset, TortoiseSchema.get_prefetch_fields,
        hq, List.countP_cons, Event.isFetch]
    | ok models =>
      simp [TortoiseSchema.from_queryset, TortoiseSchema.get_prefetch_fields,
        hq, List.countP_cons, Event.isFetch,
        convert_each_countP_isFetch C models]
  · cases hq : C.prefetch_single qs (cfg.fetch_fields.getD []) with
    | error e =>
      simp [TortoiseSchema.from_queryset_single,
        TortoiseSchema.get_prefetch_fields, hq, List.countP_cons,
        Event.isFetch]
    | ok r =>
      cases hfo : C.from_orm r <;>
        simp [TortoiseSchema.from_queryset_single,
          TortoiseSchema.get_prefetch_fields, hq, hfo, List.countP_cons,
          Event.isFetch]
  · cases hq : C.prefetch_many qs (cfg.fetch_fields.getD []) with
    | error e =>
      simp [TortoiseListSchema.from_queryset,
        TortoiseListSchema.get_prefetch_fields, hq, List.countP_cons,
        Event.isFetch]
    | ok models =>
      cases hroot : C.from_orm_root models <;>
        simp [TortoiseListSchema.from_queryset,
          TortoiseListSchema.get_prefetch_fields, hq, hroot,
          List.countP_cons, Event.isFetch]

/-! ### C2 -/

/-- C2: every fetch issued by any conversion operation is augmented with
exactly the configured relation names: each fetch event in the trace carries
precisely the configured list (so its set of names is the configured set,
order-independent; in particular `["a", "a__b"]` gives exactly the set
`{"a", "a__b"}`, and an empty or absent configuration gives no relation
augmentation at all). -/
theorem fetch_augmented_with_configured_relations (C : Collab M Q S E)
    (cfg : SchemaConfig) (model : M) (qs : Q) :
    (∀ ev ∈ (TortoiseSchema.from_tortoise C cfg model).1.2,
      ev.isFetch = true → ev.rels? = some (cfg.fetch_fields.getD [])) ∧
    (∀ ev ∈ (TortoiseSchema.from_queryset C cfg qs).1.2,
      ev.isFetch = true → ev.rels? = some (cfg.fetch_fields.getD [])) ∧
    (∀ ev ∈ (TortoiseSchema.from_queryset_single C cfg qs).1.2,
      ev.isFetch = true → ev.rels? = some (cfg.fetch_fields.getD [])) ∧
    (∀ ev ∈ (TortoiseListSchema.from_queryset C cfg qs).1.2,
      ev.isFetch = true → ev.rels? = some (cfg.fetch_fields.getD [])) ∧
    (cfg.fetch_fields = some ["a", "a__b"] →
      (cfg.fetch_fields.getD []).toFinset = ({"a", "a__b"} : Finset String)) ∧
    (cfg.fetch_fields = none ∨ cfg.fetch_fields = some [] →
      cfg.fetch_fields.getD [] = []) := by
  refine ⟨?_, ?_, ?_, ?_, ?_, ?_⟩
  · intro ev hev hfetch
    cases hf : C.fetch_related model (cfg.fetch_fields.getD []) with
    | error e =>
      simp [TortoiseSchema.from_tortoise, TortoiseSchema.get_prefetch_fields,
        hf] at hev
      subst hev; rfl
    | ok r =>
      cases hfo : C.from_orm r <;>
        simp [TortoiseSchema.from_tortoise,
          TortoiseSchema.get_prefetch_fields, hf, hfo] at hev <;>
        rcases hev with h | h <;> subst h
      · rfl
      · simp [Event.isFetch] at hfetch
      · rfl
      · simp [Event.isFetch] at hfetch
  · intro ev hev hfetch
    cases hq : C.prefetch_many qs (cfg.fetch_fields.getD []) with
    | error e =>
      simp [TortoiseSchema.from_queryset, TortoiseSchema.get_prefetch_fields,
        hq] at hev
      subst hev; rfl
    | ok models =>
      simp [TortoiseSchema.from_queryset, TortoiseSchema.get_prefetch_fields,
        hq] at hev
      rcases hev with h | h
      · subst h; rfl
      · have := convert_each_events_convert C models ev h
        rw [hfetch] at this
        exact absurd this (by simp)
  · intro ev hev hfetch
    cases hq : C.prefetch_single qs (cfg.fetch_fields.getD []) with
    | error e =>
      simp [TortoiseSchema.from_queryset_single,
        TortoiseSchema.get_prefetch_fields, hq] at hev
      subst hev; rfl
    | ok r =>
      cases hfo : C.from_orm r <;>
        simp [TortoiseSchema.from_queryset_single,
          TortoiseSchema.get_prefetch_fields, hq, hfo] at hev <;>
        rcases hev with h | h <;> subst h
      · rfl
      · simp [Event.isFetch] at hfetch
      · rfl
      · simp [Event.isFetch] at hfetch
  · intro ev hev hfetch
    cases hq : C.prefetch_many qs (cfg.fetch_fields.getD []) with
    | error e =>
      simp [TortoiseListSchema.from_queryset,
        TortoiseListSchema.get_prefetch_fields, hq] at hev
      subst hev; rfl
    | ok models =>
      cases hroot : C.from_orm_root models <;>
        simp [TortoiseListSchema.from_queryset,
          TortoiseListSchema.get_prefetch_fields, hq, hroot] at hev <;>
        rcases hev with h | h <;> subst h
      · rfl
      · simp [Event.isFetch] at hfetch
      · rfl
      · simp [Event.isFetch] at hfetch
  · intro h; rw [h]; simp
  · rintro (h | h) <;> rw [h] <;> rfl

/-- Witness for C2 at a concrete configuration and trace event: the sole
fetch event of `from_tortoise` under configuration `["a", "a__b"]` carries
exactly that list, whose set of names is `{"a", "a__b"}`. -/
theorem fetch_augmented_with_configured_relations_witness :
    (Event.fetchRelated (Q := Nat) 5 ["a", "a__b"]).rels?
        = some ((⟨some ["a", "a__b"]⟩ : SchemaConfig).fetch_fields.getD []) ∧
    ((⟨some ["a", "a__b"]⟩ : SchemaConfig).fetch_fields.getD []).toFinset
        = ({"a", "a__b"} : Finset String) :=
  ⟨(fetch_augmented_with_configured_relations collabOk
      ⟨some ["a", "a__b"]⟩ 5 0).1 (Event.fetchRelated 5 ["a", "a__b"])
      (by simp [TortoiseSchema.from_tortoise,
        TortoiseSchema.get_prefetch_fields, collabOk]) rfl,
    (fetch_augmented_with_configured_relations collabOk
      ⟨some ["a", "a__b"]⟩ 5 0).2.2.2.2.1 rfl⟩

/-! ### C7 -/

/-- When the records before `m` all convert successfully and `m` is the
first record whose conversion fails, the conversion loop fails with exactly
that converter error. -/
theorem convert_each_propagates_first_error (C : Collab M Q S E)
    (ms₁ : List M) (m : M) (ms₂ : List M) (e : E)
    (hok : ∀ r ∈ ms₁, ∃ s, C.from_orm r = .ok s)
    (hm : C.from_orm m = .error e) :
    (TortoiseSchema.convert_each C (ms₁ ++ m :: ms₂)).1 = .error e := by
  induction ms₁ with
  | nil => simp [TortoiseSchema.convert_each, hm]
  | cons a as ih =>
    obtain ⟨s, hs⟩ := hok a (by simp)
    have hrest : ∀ r ∈ as, ∃ s', C.from_orm r = .ok s' :=
      fun r hr => hok r (by simp [hr])
    have htail := ih hrest
    rcases hrec : TortoiseSchema.convert_each C (as ++ m :: ms₂) with ⟨r, t⟩
    rw [hrec] at htail
    simp at htail
    subst htail
    simp [TortoiseSchema.convert_each, hs, hrec]

/-- C7: failures and the conversion operations pass each other through
unmodified, in both directions.  Backward: every failure a conversion
operation produces is a failure the object source or the converter raised at
one of the calls it issued, so the adapter wraps, translates and defines no
error of its own.  Forward: whenever a collaborator call the operation
issues fails, the operation fails with exactly that error, so the adapter
catches, retries and recovers from no error. -/
theorem errors_propagate_unmodified (C : Collab M Q S E) (cfg : SchemaConfig)
    (model : M) (qs : Q) (e : E) :
    ((TortoiseSchema.from_tortoise C cfg model).1.1 = .error e →
      C.fetch_related model (cfg.fetch_fields.getD []) = .error e ∨
      ∃ m, C.fetch_related model (cfg.fetch_fields.getD []) = .ok m ∧
        C.from_orm m = .error e) ∧
    ((TortoiseSchema.from_queryset C cfg qs).1.1 = .error e →
      C.prefetch_many qs (cfg.fetch_fields.getD []) = .error e ∨
      ∃ ms, C.prefetch_many qs (cfg.fetch_fields.getD []) = .ok ms ∧
        ∃ m ∈ ms, C.from_orm m = .error e) ∧
    ((TortoiseSchema.from_queryset_single C cfg qs).1.1 = .error e →
      C.prefetch_single qs (cfg.fetch_fields.getD []) = .error e ∨
      ∃ m, C.prefetch_single qs (cfg.fetch_fields.getD []) = .ok m ∧
        C.from_orm m = .error e) ∧
    ((TortoiseListSchema.from_queryset C cfg qs).1.1 = .error e →
      C.prefetch_many qs (cfg.fetch_fields.getD []) = .error e ∨
      ∃ ms, C.prefetch_many qs (cfg.fetch_fields.getD []) = .ok ms ∧
        C.from_orm_root ms = .error e) ∧
    (C.fetch_related model (cfg.fetch_fields.getD []) = .error e →
      (TortoiseSchema.from_tortoise C cfg model).1.1 = .error e) ∧
    (∀ m, C.fetch_related model (cfg.fetch_fields.getD []) = .ok m →
      C.from_orm m = .error e →
      (TortoiseSchema.from_tortoise C cfg model).1.1 = .error e) ∧
    (C.prefetch_many qs (cfg.fetch_fields.getD []) = .error e →
      (TortoiseSchema.from_queryset C cfg qs).1.1 = .error e ∧
      (TortoiseListSchema.from_queryset C cfg qs).1.1 = .error e) ∧
    (∀ ms₁ m ms₂,
      C.prefetch_many qs (cfg.fetch_fields.getD []) = .ok (ms₁ ++ m :: ms₂) →
      (∀ r ∈ ms₁, ∃ s, C.from_orm r = .ok s) →
      C.from_orm m = .error e →
      (TortoiseSchema.from_queryset C cfg qs).1.1 = .error e) ∧
    (C.prefetch_single qs (cfg.fetch_fields.getD []) = .error e →
      (TortoiseSchema.from_queryset_single C cfg qs).1.1 = .error e) ∧
    (∀ m, C.prefetch_single qs (cfg.fetch_fields.getD []) = .ok m →
      C.from_orm m = .error e →
      (TortoiseSchema.from_queryset_single C cfg qs).1.1 = .error e) ∧
    (∀ ms, C.prefetch_many qs (cfg.fetch_fields.getD []) = .ok ms →
      C.from_orm_root ms = .error e →
      (TortoiseListSchema.from_queryset C cfg qs).1.1 = .error e) := by
  refine ⟨?_, ?_, ?_, ?_, ?_, ?_, ?_, ?_, ?_, ?_, ?_⟩
  · intro h
    cases hf : C.fetch_related model (cfg.fetch_fields.getD []) with
    | error e' =>
      simp [TortoiseSchema.from_tortoise, TortoiseSchema.get_prefetch_fields,
        hf] at h
      exact Or.inl (by rw [h])
    | ok r =>
      cases hfo : C.from_orm r <;>
        simp [TortoiseSchema.from_tortoise,
          TortoiseSchema.get_prefetch_fields, hf, hfo] at h
      exact Or.inr ⟨r, rfl, by rw [hfo, h]⟩
  · intro h
    cases hq : C.prefetch_many qs (cfg.fetch_fields.getD []) with
    | error e' =>
      simp [TortoiseSchema.from_queryset, TortoiseSchema.get_prefetch_fields,
        hq] at h
      exact Or.inl (by rw [h])
    | ok models =>
      simp [TortoiseSchema.from_queryset, TortoiseSchema.get_prefetch_fields,
        hq] at h
      exact Or.inr ⟨models, rfl, convert_each_error C models e h⟩
  · intro h
    cases hq : C.prefetch_single qs (cfg.fetch_fields.getD []) with
    | error e' =>
      simp [TortoiseSchema.from_queryset_single,
        TortoiseSchema.get_prefetch_fields, hq] at h
      exact Or.inl (by rw [h])
    | ok r =>
      cases hfo : C.from_orm r <;>
        simp [TortoiseSchema.from_queryset_single,
          TortoiseSchema.get_prefetch_fields, hq, hfo] at h
      exact Or.inr ⟨r, rfl, by rw [hfo, h]⟩
  · intro h
    cases hq : C.prefetch_many qs (cfg.fetch_fields.getD []) with
    | error e' =>
      simp [TortoiseListSchema.from_queryset,
        TortoiseListSchema.get_prefetch_fields, hq] at h
      exact Or.inl (by rw [h])
    | ok models =>
      cases hroot : C.from_orm_root models <;>
        simp [TortoiseListSchema.from_queryset,
          TortoiseListSchema.get_prefetch_fields, hq, hroot] at h
      exact Or.inr ⟨models, rfl, by rw [hroot, h]⟩
  · intro h
    simp [TortoiseSchema.from_tortoise, TortoiseSchema.get_prefetch_fields, h]
  · intro m hm hfo
    simp [TortoiseSchema.from_tortoise, TortoiseSchema.get_prefetch_fields,
      hm, hfo]
  · intro h
    constructor
    · simp [TortoiseSchema.from_queryset, TortoiseSchema.get_prefetch_fields,
        h]
    · simp [TortoiseListSchema.from_queryset,
        TortoiseListSchema.get_prefetch_fields, h]
  · intro ms₁ m ms₂ hq hok hm
    have hc := convert_each_propagates_first_error C ms₁ m ms₂ e hok hm
    simp [TortoiseSchema.from_queryset, TortoiseSchema.get_prefetch_fields,
      hq, hc]
  · intro h
    simp [TortoiseSchema.from_queryset_single,
      TortoiseSchema.get_prefetch_fields, h]
  · intro m hm hfo
    simp [TortoiseSchema.from_queryset_single,
      TortoiseSchema.get_prefetch_fields, hm, hfo]
  · intro ms hq hroot
    simp [TortoiseListSchema.from_queryset,
      TortoiseListSchema.get_prefetch_fields, hq, hroot]

/-- Witness for C7, in both directions: `collabBad.fetch_related` fails with
error `7` and `from_tortoise` surfaces exactly that error; `collabMid`
converts record `0` but fails on record `1` with error `13`, and
`from_queryset` over its three-record fetch surfaces exactly error `13`;
and the error `from_tortoise` surfaces under `collabBad` is one its
collaborator raised. -/
theorem errors_propagate_unmodified_witness :
    ((TortoiseSchema.from_tortoise collabBad
        (⟨some ["a"]⟩ : SchemaConfig) 5).1.1 = .error 7) ∧
    ((TortoiseSchema.from_queryset collabMid
        (⟨some ["a"]⟩ : SchemaConfig) 3).1.1 = .error 13) ∧
    (collabBad.fetch_related 5
        ((⟨some ["a"]⟩ : SchemaConfig).fetch_fields.getD []) = .error 7 ∨
      ∃ m, collabBad.fetch_related 5
          ((⟨some ["a"]⟩ : SchemaConfig).fetch_fields.getD []) = .ok m ∧
        collabBad.from_orm m = .error 7) :=
  ⟨(errors_propagate_unmodified collabBad ⟨some ["a"]⟩ 5 0 7).2.2.2.2.1 rfl,
    (errors_propagate_unmodified collabMid
        ⟨some ["a"]⟩ 5 3 13).2.2.2.2.2.2.2.1 [0] 1 [2] rfl
      (by intro r hr; simp at hr; subst hr; exact ⟨0, rfl⟩) rfl,
    (errors_propagate_unmodified collabBad ⟨some ["a"]⟩ 5 0 7).1 rfl⟩

/-! ### C10 -/

/-- When every record converts successfully, the conversion loop issues one
converter call per record. -/
theorem convert_each_countP_isConvert (C : Collab M Q S E) (ms : List M)
    (f : M → S) (hf : ∀ r ∈ ms, C.from_orm r = .ok (f r)) :
    ((TortoiseSchema.convert_each C ms).2.countP Event.isConvert)
      = ms.length := by
  rw [convert_each_ok_map C ms f hf]
  simp [List.countP_map, Function.comp, Event.isConvert]

/-- C10: `TortoiseListSchema.from_queryset` makes exactly one converter call
per invocation, applied to the entire awaited record collection as a single
root value, however many records the fetch yields — whereas
`TortoiseSchema.from_queryset` calls the converter once per record. -/
theorem list_schema_single_root_convert (C : Collab M Q S E)
    (cfg : SchemaConfig) (qs : Q) (records : List M) (f : M → S)
    (hq : C.prefetch_many qs (cfg.fetch_fields.getD []) = .ok records) :
    ((TortoiseListSchema.from_queryset C cfg qs).1.2.filter Event.isConvert
        = [Event.fromOrmRoot records]) ∧
    ((∀ r ∈ records, C.from_orm r = .ok (f r)) →
      (TortoiseSchema.from_queryset C cfg qs).1.2.countP Event.isConvert
        = records.length) := by
  constructor
  · cases hroot : C.from_orm_root records <;>
      simp [TortoiseListSchema.from_queryset,
        TortoiseListSchema.get_prefetch_fields, hq, hroot, Event.isConvert,
        List.filter]
  · intro hf
    simp [TortoiseSchema.from_queryset, TortoiseSchema.get_prefetch_fields,
      hq, List.countP_cons, Event.isConvert,
      convert_each_countP_isConvert C records f hf]

/-- Witness for C10: `collabOk` with queryset `3` yields `[0, 1, 2]`; the
list schema converts the whole collection once, the plain schema three
times. -/
theorem list_schema_single_root_convert_witness :
    ((TortoiseListSchema.from_queryset collabOk ⟨some ["a"]⟩ 3).1.2.filter
        Event.isConvert = [Event.fromOrmRoot [0, 1, 2]]) ∧
    (TortoiseSchema.from_queryset collabOk ⟨some ["a"]⟩ 3).1.2.countP
        Event.isConvert = 3 := by
  have h := list_schema_single_root_convert collabOk ⟨some ["a"]⟩ 3 [0, 1, 2]
    (fun m => m * 2) rfl
  exact ⟨h.1, h.2 (by simp [collabOk])⟩
